import Mathlib

/-!
Shallow embedding of `src/arm/ripper/makemkv.py` from the
automatic-ripping-machine repository: the MakeMKV robot-mode output
tokenizer (`parse_content`), record decoder (`parse_line`), message
classifier (`MakeMKVOutputChecker`), stream runner (`run`), track
aggregator (`TrackInfoProcessor`) and the concurrency throttle used by
`makemkv_info`.

Machine integers are modelled as `Int` (Python integers are unbounded),
Python strings as `String`, Python lists as `List`, and fallible Python
code as `Except PyExn`.  Python `float` values are modelled by the
uninterpreted type `PyFloat`: no claim depends on floating-point
arithmetic, only on the default value `0.0` and on which string was
parsed.
-/

namespace ArmMakemkv

deriving instance DecidableEq for Except

/-- Python exceptions that the embedded code can raise.
`makeMkvParserError` models the source's `MakeMkvParserError(ValueError)`
class; the stream runner catches only that one. -/
inductive PyExn where
  | makeMkvParserError (msg : String)
  | valueError (msg : String)
  | typeError (msg : String)
  | indexError (msg : String)
deriving DecidableEq, Repr

/-- The double-quote character. -/
def quoteChar : Char := Char.ofNat 34

/-- The colon character. -/
def colonChar : Char := Char.ofNat 58

/-- The newline character (`os.linesep` on Linux). -/
def newlineChar : Char := Char.ofNat 10

/-- Python `str.strip(c)`: remove all leading and trailing occurrences of `c`. -/
def pyStripChar (ch : Char) (s : String) : String :=
  String.mk (((s.toList.dropWhile (fun c => c = ch)).reverse.dropWhile (fun c => c = ch)).reverse)

/-- Python `str.strip()`: remove all leading and trailing whitespace. -/
def pyStripWs (s : String) : String :=
  String.mk (((s.toList.dropWhile Char.isWhitespace).reverse.dropWhile Char.isWhitespace).reverse)

/-- Python `str.rstrip(os.linesep)` on Linux: remove trailing newline characters. -/
def pyRstripNl (s : String) : String :=
  String.mk ((s.toList.reverse.dropWhile (fun c => c = newlineChar)).reverse)

/-- Find the first occurrence of `sep` in a character list; return the parts
before and after it, or `none` when `sep` does not occur. -/
def charsSplitFirst (sep : List Char) : List Char → Option (List Char × List Char)
  | [] => none
  | c :: cs =>
    if sep.isPrefixOf (c :: cs) then some ([], (c :: cs).drop sep.length)
    else
      match charsSplitFirst sep cs with
      | none => none
      | some (b, a) => some (c :: b, a)

/-- Python `str.split(sep, maxsplit)` on character lists, fuel-driven.
A negative `maxsplit` means unlimited splits, exactly as in Python.  Every
separator used by the parser is non-empty, so each split consumes at least
one character and a fuel of `s.length + 1` can never be exhausted. -/
def charsSplitFuel (sep : List Char) : Nat → Int → List Char → List (List Char)
  | 0, _, s => [s]
  | fuel + 1, maxsplit, s =>
    if maxsplit = 0 then [s]
    else
      match charsSplitFirst sep s with
      | none => [s]
      | some (b, a) => b :: charsSplitFuel sep fuel (maxsplit - 1) a

/-- Python `s.split(sep, maxsplit)` for a non-empty separator string. -/
def pySplit (s sep : String) (maxsplit : Int) : List String :=
  (charsSplitFuel sep.toList (s.toList.length + 1) maxsplit s.toList).map String.mk

/-- Accumulate decimal digits; `none` as soon as a non-digit occurs. -/
def decDigitsAux : Nat → List Char → Option Nat
  | acc, [] => some acc
  | acc, c :: cs => if c.isDigit then decDigitsAux (10 * acc + (c.toNat - 48)) cs else none

/-- A non-empty all-digit character list to its value, `none` otherwise. -/
def decDigits : List Char → Option Nat
  | [] => none
  | cs => decDigitsAux 0 cs

/-- Python `int(str)`: optional surrounding whitespace, an optional sign,
then decimal digits; anything else raises `ValueError`. -/
def pyInt (s : String) : Except PyExn Int :=
  let t := ((s.toList.dropWhile Char.isWhitespace).reverse.dropWhile Char.isWhitespace).reverse
  match t with
  | [] => .error (.valueError s)
  | c :: ds =>
    if c = '-' then
      match decDigits ds with
      | some n => .ok (-(n : Int))
      | none => .error (.valueError s)
    else if c = '+' then
      match decDigits ds with
      | some n => .ok (n : Int)
      | none => .error (.valueError s)
    else
      match decDigits (c :: ds) with
      | some n => .ok (n : Int)
      | none => .error (.valueError s)

/-- `parse_content(content, num_header, num_message)` from the source: split
the payload on commas at most `num_header` times from the left, split the
last piece on the literal three-character sequence quote-comma-quote at most
`num_message` times, and strip all leading and trailing double quotes from
each of the pieces so obtained (Python `str.strip` semantics). -/
def parse_content (content : String) (num_header num_message : Int) : List String :=
  let header := pySplit content "," num_header
  let message := pySplit (header.getLastD "") "\",\"" num_message
  header.dropLast ++ message.map (pyStripChar quoteChar)

/-- The nine MakeMKV output line tags (`OutputType` in the source). -/
inductive OutputType where
  | DRV | MSG | CINFO | SINFO | TCOUNT | TINFO | PRGV | PRGC | PRGT
deriving DecidableEq, Repr

/-- `msg_type in OutputType.__members__` plus the member lookup. -/
def outputTypeOf (s : String) : Option OutputType :=
  if s = "DRV" then some .DRV
  else if s = "MSG" then some .MSG
  else if s = "CINFO" then some .CINFO
  else if s = "SINFO" then some .SINFO
  else if s = "TCOUNT" then some .TCOUNT
  else if s = "TINFO" then some .TINFO
  else if s = "PRGV" then some .PRGV
  else if s = "PRGC" then some .PRGC
  else if s = "PRGT" then some .PRGT
  else none

/-- `MSG:code,flags,count,message,format,param0,param1,...`.
As in the source, `sprintf` holds the unformatted template followed by all
parameters (the constructor call is
`MakeMKVMessage(*islice(temp, 4), list(temp))`). -/
structure MakeMKVMessage where
  code : Int
  flags : Int
  count : Int
  message : String
  sprintf : List String
deriving DecidableEq, Repr

/-- The message parameters: everything of `sprintf` after the template. -/
def MakeMKVMessage.params (m : MakeMKVMessage) : List String := m.sprintf.drop 1

/-- `MakeMKVErrorMessage`: the fields of `MakeMKVMessage` plus the extracted
error string (flattened here instead of Lean structure inheritance). -/
structure MakeMKVErrorMessage where
  code : Int
  flags : Int
  count : Int
  message : String
  sprintf : List String
  error : String
deriving DecidableEq, Repr

/-- `MakeMKVErrorMessage.__post_init__`: raise `ValueError` when `sprintf`
has fewer than 2 entries, else take `error = sprintf[1]` and repack
`sprintf = sprintf[2:]`.  (The callers pass `data.message` for the `error`
field positionally; `__post_init__` overwrites it, so it is not a
parameter here.) -/
def mkMakeMKVErrorMessage (m : MakeMKVMessage) : Except PyExn MakeMKVErrorMessage :=
  match m.sprintf with
  | _ :: e :: rest => .ok ⟨m.code, m.flags, m.count, m.message, rest, e⟩
  | _ => .error (.valueError "MakeMKVErrorMessage: sprintf has fewer than 2 entries")

/-- `TCOUNT:count`. -/
structure Titles where
  count : Int
deriving DecidableEq, Repr

/-- `CINFO:id,code,value`. -/
structure CInfo where
  id : Int
  code : Int
  value : String
deriving DecidableEq, Repr

/-- `TINFO:tid,id,code,value` (the title id is appended last, as in the
source's field order). -/
structure TInfo where
  id : Int
  code : Int
  value : String
  tid : Int
deriving DecidableEq, Repr

/-- `SINFO:tid,sid,id,code,value`. -/
structure SInfo where
  id : Int
  code : Int
  value : String
  tid : Int
  sid : Int
deriving DecidableEq, Repr

/-- `PRGV:current,total,max`. -/
structure ProgressBarValues where
  current : Int
  total : Int
  maximum : Int
deriving DecidableEq, Repr

/-- `PRGC:code,id,name` and `PRGT:code,id,name`. -/
structure ProgressBarTitle where
  code : Int
  oid : Int
  name : String
deriving DecidableEq, Repr

/-- Drive types issued by `OutputType.DRV`. -/
inductive DriveType where
  | CD | DVD | BD_TYPE1 | BD_TYPE2
deriving DecidableEq, Repr

/-- `DriveType(value)` including the `_missing_` fallback, which returns
`CD` for every undocumented flag value. -/
def DriveType.ofInt (v : Int) : DriveType :=
  if v = 0 then .CD
  else if v = 1 then .DVD
  else if v = 12 then .BD_TYPE1
  else if v = 28 then .BD_TYPE2
  else .CD

/-- Values of the `visible` field of a DRV record. -/
inductive DriveVisible where
  | EMPTY | OPEN | LOADED | LOADING | NOT_ATTACHED
deriving DecidableEq, Repr

/-- `DriveVisible(value)` including the `_missing_` fallback, which returns
`NOT_ATTACHED` for every value outside the known set. -/
def DriveVisible.ofInt (v : Int) : DriveVisible :=
  if v = 0 then .EMPTY
  else if v = 1 then .OPEN
  else if v = 2 then .LOADED
  else if v = 3 then .LOADING
  else if v = 256 then .NOT_ATTACHED
  else .NOT_ATTACHED

/-- `MAKEMKV_UNKNOWN_DRV = 999`. -/
def MAKEMKV_UNKNOWN_DRV : Int := 999

/-- `Drive` with the `DriveInformation` base fields flattened in.  The
source's `open` field is called `tray_open` here (`open` is a Lean
keyword).  The derived fields are those computed by `__post_init__`. -/
structure Drive where
  mount : String
  disc : String
  info : String
  flags : Int
  enabled : Bool
  visible : Int
  index : Int
  loaded : Bool
  tray_open : Bool
  attached : Bool
  media_cd : Bool
  media_dvd : Bool
  media_bd : Bool
deriving DecidableEq, Repr

/-- The two `__post_init__` methods of `DriveInformation` and `Drive`:
`enabled` is the comparison of the wire value with `MAKEMKV_UNKNOWN_DRV`,
and the medium/visibility fields are derived once from `flags` and
`visible` through the two enums (with their `_missing_` fallbacks). -/
def mkDrive (mount disc info : String) (flags enabledWire visible index : Int) : Drive :=
  let dt := DriveType.ofInt flags
  let dv := DriveVisible.ofInt visible
  { mount := mount
    disc := disc
    info := info
    flags := flags
    enabled := decide (enabledWire = MAKEMKV_UNKNOWN_DRV)
    visible := visible
    index := index
    loaded := decide (dv = DriveVisible.LOADED ∨ dv = DriveVisible.LOADING)
    tray_open := decide (dv = DriveVisible.OPEN)
    attached := decide (¬dv = DriveVisible.NOT_ATTACHED)
    media_cd := decide (dt = DriveType.CD)
    media_dvd := decide (dt = DriveType.DVD)
    media_bd := decide (dt = DriveType.BD_TYPE1 ∨ dt = DriveType.BD_TYPE2) }

/-- `Drive(*reversed(list(parse_content(content, 4, 2))))`: the dataclass
takes exactly seven positional fields — any other count raises `TypeError`
— and the four numeric fields go through `int(...)`. -/
def mkDriveFromTokens (toks : List String) : Except PyExn Drive :=
  match toks with
  | [mount, disc, info, flagsS, enabledS, visibleS, indexS] =>
    match pyInt flagsS, pyInt enabledS, pyInt visibleS, pyInt indexS with
    | .ok flags, .ok enabledWire, .ok visible, .ok index =>
      .ok (mkDrive mount disc info flags enabledWire visible index)
    | .error e, _, _, _ => .error e
    | .ok _, .error e, _, _ => .error e
    | .ok _, .ok _, .error e, _ => .error e
    | .ok _, .ok _, .ok _, .error e => .error e
  | _ => .error (.typeError "Drive: wrong number of constructor arguments")

/-- The known SCSI/operation error strings of `READ_ERROR_MAP`. -/
def ERROR_MESSAGE_OPERATION_RESULT : String :=
  "Internal error - Operation result is incorrect (132)"

/-- Tray-open SCSI error string. -/
def ERROR_MESSAGE_TRAY_OPEN : String :=
  "Scsi error - NOT READY:MEDIUM NOT PRESENT - TRAY OPEN"

/-- Medium-error SCSI error string. -/
def ERROR_MESSAGE_MEDIUM_ERROR : String :=
  "Scsi error - MEDIUM ERROR:L-EC UNCORRECTABLE ERROR"

/-- Hardware-error SCSI error string. -/
def ERROR_MESSAGE_HARDWARE_ERROR : String :=
  "Scsi error - HARDWARE ERROR:441E"

/-- Log severities of the Python `logging` module used by the classifier. -/
inductive LogLevel where
  | debug | info | warning | error | critical
deriving DecidableEq, Repr

/-- One log call: severity and logged text. -/
abbrev LogEvent := LogLevel × String

/-- The classifier's result: either the original message passed through, or
a reclassified structured error message. -/
inductive CheckedMessage where
  | plain (m : MakeMKVMessage)
  | errmsg (e : MakeMKVErrorMessage)
deriving DecidableEq, Repr

namespace MakeMKVOutputChecker

/-- `READ_ERROR_MAP`: known read-error strings to (severity, diagnostic
note).  `.get(error_msg, (logging.warning, None))` is modelled by returning
`none` for unknown strings. -/
def READ_ERROR_MAP (s : String) : Option (LogLevel × String) :=
  if s = ERROR_MESSAGE_OPERATION_RESULT then
    some (.critical, "error possibly fatal, creating zombie processes")
  else if s = ERROR_MESSAGE_TRAY_OPEN then
    some (.info, "error mostly non fatal")
  else if s = ERROR_MESSAGE_MEDIUM_ERROR then
    some (.critical, "error possibly fatal, medium removed during mkv backup")
  else if s = ERROR_MESSAGE_HARDWARE_ERROR then
    some (.critical, "error possibly fatal, medium removed during mkv backup")
  else none

/-- `LOG_ONLY_CODES`: message code to log severity. -/
def LOG_ONLY_CODES (code : Int) : Option LogLevel :=
  if code = 5010 then some .info
  else if code = 5003 then some .warning
  else if code = 5004 then some .info
  else if code = 1002 then some .warning
  else if code = 5096 then some .warning
  else if code = 5052 then some .warning
  else none

/-- `SPECIAL_ERROR_CODES = {5055, 5080}`. -/
def SPECIAL_ERROR_CODES (code : Int) : Bool :=
  code = 5055 || code = 5080

/-- `read_error`: `error_msg = sprintf[1]` (IndexError when absent), map
lookup with `(warning, None)` default, a debug log when a note exists, then
the severity log — of the formatted message when a note exists, else of the
raw error text — and always an `ErrorMessage`. -/
def read_error (data : MakeMKVMessage) : Except PyExn (List LogEvent × CheckedMessage) :=
  match data.sprintf with
  | _ :: errorMsg :: _ =>
    let logged :=
      match READ_ERROR_MAP errorMsg with
      | some (lvl, note) => [(LogLevel.debug, note), (lvl, data.message)]
      | none => [(LogLevel.warning, errorMsg)]
    (mkMakeMKVErrorMessage data).map (fun em => (logged, .errmsg em))
  | _ => .error (.indexError "list index out of range")

/-- `write_error`: critical for the missing-file Posix error, warning
otherwise; always an `ErrorMessage`. -/
def write_error (data : MakeMKVMessage) : Except PyExn (List LogEvent × CheckedMessage) :=
  match data.sprintf with
  | _ :: errorMsg :: _ =>
    let logged :=
      if errorMsg = "Posix error - No such file or directory" then
        [(LogLevel.critical, data.message)]
      else
        [(LogLevel.warning, errorMsg)]
    (mkMakeMKVErrorMessage data).map (fun em => (logged, .errmsg em))
  | _ => .error (.indexError "list index out of range")

/-- `special_error_code`: an `ErrorMessage` with no extra logging. -/
def special_error_code (data : MakeMKVMessage) : Except PyExn (List LogEvent × CheckedMessage) :=
  (mkMakeMKVErrorMessage data).map (fun em => (([] : List LogEvent), .errmsg em))

/-- `log_only_code`: log the formatted message, pass the data through. -/
def log_only_code (data : MakeMKVMessage) (lvl : LogLevel) :
    Except PyExn (List LogEvent × CheckedMessage) :=
  .ok ([(lvl, data.message)], .plain data)

/-- `check`: dispatch on the message code, in the source's priority order. -/
def check (data : MakeMKVMessage) : Except PyExn (List LogEvent × CheckedMessage) :=
  if data.code = 2003 then read_error data
  else if data.code = 2019 then write_error data
  else if SPECIAL_ERROR_CODES data.code then special_error_code data
  else
    match LOG_ONLY_CODES data.code with
    | some lvl => log_only_code data lvl
    | none => .ok ([], .plain data)

end MakeMKVOutputChecker

/-- The tagged union of decoded records. -/
inductive Rec where
  | msg (m : MakeMKVMessage)
  | errmsg (e : MakeMKVErrorMessage)
  | titles (t : Titles)
  | cinfo (c : CInfo)
  | tinfo (t : TInfo)
  | sinfo (s : SInfo)
  | prgv (p : ProgressBarValues)
  | prgc (p : ProgressBarTitle)
  | prgt (p : ProgressBarTitle)
  | drv (d : Drive)
deriving DecidableEq, Repr

/-- The `MSG` branch of `parse_line`: at least four tokens are needed for
the positional fields (else Python raises `TypeError`), the rest become the
`sprintf` list, and the message always routes through the output checker. -/
def decodeMSG (content : String) : Except PyExn Rec :=
  match parse_content content 3 (-1) with
  | c :: f :: n :: text :: rest => do
    let code ← pyInt c
    let flags ← pyInt f
    let count ← pyInt n
    let data : MakeMKVMessage := ⟨code, flags, count, text, rest⟩
    let checked ← MakeMKVOutputChecker.check data
    match checked.2 with
    | .plain m => .ok (.msg m)
    | .errmsg e => .ok (.errmsg e)
  | _ => .error (.typeError "MakeMKVMessage: missing constructor arguments")

/-- The `PRGV` branch: exactly three integer tokens. -/
def decodePRGV (content : String) : Except PyExn Rec :=
  match parse_content content 2 0 with
  | [a, b, c] => do
    let current ← pyInt a
    let total ← pyInt b
    let maximum ← pyInt c
    .ok (.prgv ⟨current, total, maximum⟩)
  | _ => .error (.typeError "ProgressBarValues: wrong number of constructor arguments")

/-- The shared `PRGC`/`PRGT` construction: exactly three tokens, the first
two integers. -/
def mkProgressBarTitle (toks : List String) : Except PyExn ProgressBarTitle :=
  match toks with
  | [c, o, name] => do
    let code ← pyInt c
    let oid ← pyInt o
    .ok ⟨code, oid, name⟩
  | _ => .error (.typeError "ProgressBarTitle: wrong number of constructor arguments")

/-- The `SINFO` branch: `tid, sid, *info = parse_content(content, 4, 0)`
(`ValueError` when fewer than two tokens) and then `SInfo(*info, tid, sid)`
(`TypeError` unless `info` has exactly three entries). -/
def decodeSINFO (content : String) : Except PyExn Rec :=
  match parse_content content 4 0 with
  | tidS :: sidS :: rest =>
    match rest with
    | [idS, codeS, value] => do
      let idv ← pyInt idS
      let codev ← pyInt codeS
      let tid ← pyInt tidS
      let sid ← pyInt sidS
      .ok (.sinfo ⟨idv, codev, value, tid, sid⟩)
    | _ => .error (.typeError "SInfo: wrong number of constructor arguments")
  | _ => .error (.valueError "not enough values to unpack")

/-- The `TINFO` branch: `tid, *info = parse_content(content, 3, 0)` and
then `TInfo(*info, tid)`. -/
def decodeTINFO (content : String) : Except PyExn Rec :=
  match parse_content content 3 0 with
  | tidS :: rest =>
    match rest with
    | [idS, codeS, value] => do
      let idv ← pyInt idS
      let codev ← pyInt codeS
      let tid ← pyInt tidS
      .ok (.tinfo ⟨idv, codev, value, tid⟩)
    | _ => .error (.typeError "TInfo: wrong number of constructor arguments")
  | _ => .error (.valueError "not enough values to unpack")

/-- The `CINFO` branch: exactly three tokens. -/
def decodeCINFO (content : String) : Except PyExn Rec :=
  match parse_content content 2 0 with
  | [idS, codeS, value] => do
    let idv ← pyInt idS
    let codev ← pyInt codeS
    .ok (.cinfo ⟨idv, codev, value⟩)
  | _ => .error (.typeError "CInfo: wrong number of constructor arguments")

/-- The `TCOUNT` branch: a single integer token. -/
def decodeTCOUNT (content : String) : Except PyExn Rec :=
  match parse_content content 0 0 with
  | [c] => do
    let count ← pyInt c
    .ok (.titles ⟨count⟩)
  | _ => .error (.typeError "Titles: wrong number of constructor arguments")

/-- The `DRV` branch: the wire fields are reversed before construction. -/
def decodeDRV (content : String) : Except PyExn Rec :=
  (mkDriveFromTokens (parse_content content 4 2).reverse).map Rec.drv

/-- The tag of a line: the part before the first colon. -/
def tagOf (line : String) : String := (pySplit line ":" 1).getD 0 ""

/-- The payload of a line: the part after the first colon. -/
def contentOf (line : String) : String := (pySplit line ":" 1).getD 1 ""

/-- `parse_line`: raise `MakeMkvParserError` when the line has no colon or
an unknown tag, then dispatch on the tag.  Arity and `int(...)` failures
inside the constructors surface as `TypeError`/`ValueError`, which are NOT
`MakeMkvParserError`s (the source's `except MakeMkvParserError` does not
catch them). -/
def parse_line (line : String) : Except PyExn (OutputType × Rec) :=
  match line.toList.contains colonChar with
  | false => .error (.makeMkvParserError "No Message Type Detected")
  | true =>
    match outputTypeOf (tagOf line) with
    | none =>
      .error (.makeMkvParserError ("Cannot parse " ++ tagOf line))
    | some t =>
      let dec :=
        match t with
        | .MSG => decodeMSG (contentOf line)
        | .PRGV => decodePRGV (contentOf line)
        | .PRGC => (mkProgressBarTitle (parse_content (contentOf line) 2 0)).map Rec.prgc
        | .PRGT => (mkProgressBarTitle (parse_content (contentOf line) 2 0)).map Rec.prgt
        | .SINFO => decodeSINFO (contentOf line)
        | .TINFO => decodeTINFO (contentOf line)
        | .CINFO => decodeCINFO (contentOf line)
        | .DRV => decodeDRV (contentOf line)
        | .TCOUNT => decodeTCOUNT (contentOf line)
      dec.map (fun r => (t, r))

/-- A failure of a whole `run` invocation: either the terminal
`MakeMkvRuntimeError` (carrying the return code and the joined buffer of
unparsed lines), or a per-line exception that the loop does not catch and
that therefore propagates out of the generator. -/
inductive RunError where
  | makeMkvRuntimeError (returncode : Int) (output : String)
  | uncaught (e : PyExn)
deriving DecidableEq, Repr

/-- The record-type mask that selects every output type. -/
def selectAll : OutputType → Bool := fun _ => true

/-- The per-line loop of `run` over the already newline-stripped lines:
a `MakeMkvParserError` is caught, the raw line is buffered and the loop
continues; any other exception propagates immediately; a decoded record is
yielded when its type is in the mask.  Returns the buffer of unparsed lines
and the yielded records.  (`proc.returncode` is `None` for the whole read
loop — nothing calls `poll()` — so the in-loop returncode branch of the
source never fires and is not modelled.) -/
def processLines (select : OutputType → Bool) : List String → Except PyExn (List String × List Rec)
  | [] => .ok ([], [])
  | line :: rest =>
    match parse_line line with
    | .error (.makeMkvParserError _) =>
      match processLines select rest with
      | .error e => .error e
      | .ok (buf, recs) => .ok (line :: buf, recs)
    | .error e => .error e
    | .ok (t, data) =>
      match processLines select rest with
      | .error e => .error e
      | .ok (buf, recs) => .ok (buf, if select t then data :: recs else recs)

/-- `os.linesep.join(buffer)`. -/
def joinLines (buf : List String) : String := String.intercalate "\n" buf

/-- `run(options, select)`, abstracted over the child process: `lines` is
what the child wrote to stdout (each entry one line, stripped of its
terminator here via `rstrip(os.linesep)`), `returncode` its exit status.
After the loop: a non-zero exit status raises `MakeMkvRuntimeError` with
the joined buffer; a zero exit status with a non-empty buffer raises the
same error; otherwise the run completes with the yielded records. -/
def run (select : OutputType → Bool) (lines : List String) (returncode : Int) :
    Except RunError (List Rec) :=
  match processLines select (lines.map pyRstripNl) with
  | .error e => .error (.uncaught e)
  | .ok (buf, recs) =>
    if returncode ≠ 0 then .error (.makeMkvRuntimeError returncode (joinLines buf))
    else if buf ≠ [] then .error (.makeMkvRuntimeError returncode (joinLines buf))
    else .ok recs

/-- Python floats, uninterpreted: the default `0.0` and the result of
`float(s)` for a string token.  No claim depends on float arithmetic. -/
inductive PyFloat where
  | zero
  | ofToken (s : String)
deriving DecidableEq, Repr

/-- `MAKEMKV_STREAM_CODE_TYPE_VIDEO = 6201`. -/
def MAKEMKV_STREAM_CODE_TYPE_VIDEO : Int := 6201

/-- `SOURCE = "MakeMKV"`, the source tag handed to `put_track`. -/
def SOURCE : String := "MakeMKV"

/-- `convert_to_seconds`: split `H:MM:SS` on colons into exactly three
fields (`ValueError` otherwise) and combine. -/
def convert_to_seconds (hms : String) : Except PyExn Int :=
  match pySplit hms ":" (-1) with
  | [h, m, s] => do
    let hv ← pyInt h
    let mv ← pyInt m
    let sv ← pyInt s
    .ok (hv * 3600 + mv * 60 + sv)
  | _ => .error (.valueError "expected exactly three colon-separated fields")

/-- The accumulator state of `TrackInfoProcessor` (its instance
attributes). -/
structure TrackState where
  track_id : Option Int
  seconds : Int
  aspect : String
  fps : PyFloat
  filename : String
  stream_type : Option Int
deriving DecidableEq, Repr

/-- One committed track descriptor: the arguments `_add_track` passes to
the external persistence sink `utils.put_track` (without the job handle). -/
structure PutTrack where
  track_id : Int
  seconds : Int
  aspect : String
  fps : PyFloat
  forced : Bool
  source : String
  filename : String
deriving DecidableEq, Repr

namespace TrackInfoProcessor

/-- The `__init__` state. -/
def initState : TrackState := ⟨none, 0, "", .zero, "", none⟩

/-- `_add_track`: commit nothing when no title is current; otherwise hand
the accumulated descriptor to `put_track` and reset `seconds`, `aspect`,
`fps` and `filename` (and only those — `track_id` and `stream_type` are
left as they are, exactly as in the source). -/
def add_track (s : TrackState) : TrackState × List PutTrack :=
  match s.track_id with
  | none => (s, [])
  | some tid =>
    ({ s with seconds := 0, aspect := "", fps := .zero, filename := "" },
     [{ track_id := tid, seconds := s.seconds, aspect := s.aspect, fps := s.fps,
        forced := false, source := SOURCE, filename := s.filename }])

/-- The elements at odd indices (`[1::2]`). -/
def oddElems {α : Type} : List α → List α
  | [] => []
  | [_] => []
  | _ :: b :: rest => b :: oddElems rest

/-- `next(iter(value.split(quote)[1::2]), value)`: the first sub-token that
lies between double quotes, falling back to the raw value. -/
def extractFilename (value : String) : String :=
  match oddElems (pySplit value "\"" (-1)) with
  | [] => value
  | f :: _ => f

/-- Python `str.split()` with no arguments: split on whitespace runs,
dropping empty pieces. -/
def pyWsTokens (s : String) : List String :=
  (s.split Char.isWhitespace).filter (fun t => t ≠ "")

/-- `_handle_tinfo`: a FILENAME (27) attribute sets the filename from the
embedded quoted sub-token; a DURATION (9) attribute parses `H:MM:SS`. -/
def handle_tinfo (s : TrackState) (m : TInfo) : Except PyExn TrackState :=
  if m.id = 27 then .ok { s with filename := extractFilename m.value }
  else if m.id = 9 then
    (convert_to_seconds (pyStripWs m.value)).map (fun secs => { s with seconds := secs })
  else .ok s

/-- `_handle_sinfo`: a TYPE (1) attribute caches the stream type code;
aspect (20) and fps (21) are recorded only while the cached stream type is
the video constant. -/
def handle_sinfo (s : TrackState) (m : SInfo) : Except PyExn TrackState :=
  if m.id = 1 then .ok { s with stream_type := some m.code }
  else if s.stream_type = some MAKEMKV_STREAM_CODE_TYPE_VIDEO then
    if m.id = 20 then .ok { s with aspect := pyStripWs m.value }
    else if m.id = 21 then
      match pyWsTokens m.value with
      | tok :: _ => .ok { s with fps := .ofToken tok }
      | [] => .error (.indexError "list index out of range")
    else .ok s
  else .ok s

/-- `_handle_track_or_stream_info`: commit the pending descriptor when a
record for a different title id arrives, record the new id, then dispatch
to the attribute handler. -/
def handle_info (s : TrackState) (tid : Int)
    (upd : TrackState → Except PyExn TrackState) : Except PyExn (TrackState × List PutTrack) :=
  let p := if s.track_id ≠ none ∧ s.track_id ≠ some tid then add_track s else (s, [])
  let s₂ := { p.1 with track_id := some tid }
  (upd s₂).map (fun s₃ => (s₃, p.2))

/-- `_process_message`: only `TInfo` and `SInfo` touch the accumulator; a
`Titles` record only updates the external title count and every other
record is ignored. -/
def process_message (s : TrackState) : Rec → Except PyExn (TrackState × List PutTrack)
  | .tinfo m => handle_info s m.tid (fun st => handle_tinfo st m)
  | .sinfo m => handle_info s m.tid (fun st => handle_sinfo st m)
  | _ => .ok (s, [])

/-- The message loop of `process_messages`. -/
def processList (s : TrackState) : List Rec → Except PyExn (TrackState × List PutTrack)
  | [] => .ok (s, [])
  | r :: rest =>
    match process_message s r with
    | .error e => .error e
    | .ok (s₁, out₁) =>
      match processList s₁ rest with
      | .error e => .error e
      | .ok (s₂, out₂) => .ok (s₂, out₁ ++ out₂)

/-- `process_messages`: fold the record stream from the initial state, then
commit the last pending track. -/
def process_messages (records : List Rec) : Except PyExn (TrackState × List PutTrack) :=
  match processList initState records with
  | .error e => .error e
  | .ok (s, out) =>
    let p := add_track s
    .ok (p.1, out ++ p.2)

end TrackInfoProcessor

/-- The zero-based index of the first polled count at or below the
ceiling: how many polls a blocking wait spends before it may return. -/
def waitFirstLE (ceiling : Nat) : List Nat → Option Nat
  | [] => none
  | c :: rest => if c ≤ ceiling then some 0 else (waitFirstLE ceiling rest).map (· + 1)

/-- Modelled from the spec: `arm.ripper.utils.sleep_check_process` is not
part of the source file under verification (only its caller
`makemkv_info` is).  Per the specification it polls the count of running
external-tool processes at a fixed interval and blocks until the count is
at or below the configured ceiling, and a ceiling of 0 disables throttling
entirely.  `counts` is the sequence of polled counts; the result is the
number of polls spent waiting, `none` when the count never drops (an
indefinite block). -/
def sleep_check_process (ceiling : Nat) (counts : List Nat) : Option Nat :=
  if ceiling = 0 then some 0
  else waitFirstLE ceiling counts

/-- What the throttle around one `makemkv_info` invocation did. -/
structure ThrottleTrace where
  preWaits : Nat
  cooldownApplied : Bool
  postWaits : Nat
deriving DecidableEq, Repr

/-- The throttling skeleton of `makemkv_info` (source lines 551-572), with
the `run` invocation itself abstracted away: the pre-invocation wait, then
— in the `finally` block — the fixed cooldown `sleep(wait_time)` applied
only when `max_processes` is truthy (non-zero), and the post-invocation
repoll.  `none` models an indefinite block inside a wait. -/
def makemkv_info_throttle (ceiling : Nat) (preCounts postCounts : List Nat) :
    Option ThrottleTrace :=
  match sleep_check_process ceiling preCounts with
  | none => none
  | some pre =>
    match sleep_check_process ceiling postCounts with
    | none => none
    | some post => some ⟨pre, decide (ceiling ≠ 0), post⟩

/-!  Theorems about the embedding. -/

/-- The buffer of unparsed lines is empty exactly when every line of the
stream decoded successfully. -/
theorem processLines_buf_empty (select : OutputType → Bool) :
    ∀ (ls buf : List String) (recs : List Rec),
      processLines select ls = .ok (buf, recs) →
      (buf = [] ↔ ∀ l ∈ ls, ∃ r, parse_line l = .ok r) := by
  intro ls
  induction ls with
  | nil =>
    intro buf recs h
    simp only [processLines, Except.ok.injEq, Prod.mk.injEq] at h
    simp [← h.1]
  | cons line rest ih =>
    intro buf recs h
    simp only [processLines] at h
    split at h
    · rename_i m hp
      cases hr : processLines select rest with
      | error e2 => rw [hr] at h; cases h
      | ok p =>
        rw [hr] at h
        obtain ⟨b, r⟩ := p
        simp only [Except.ok.injEq, Prod.mk.injEq] at h
        obtain ⟨hb, -⟩ := h
        constructor
        · intro hc; rw [← hb] at hc; cases hc
        · intro hall
          obtain ⟨r', hr'⟩ := hall line (by simp)
          rw [hp] at hr'
          cases hr'
    · cases h
    · rename_i t data hp
      cases hr : processLines select rest with
      | error e2 => rw [hr] at h; cases h
      | ok p =>
        rw [hr] at h
        obtain ⟨b, r⟩ := p
        simp only [Except.ok.injEq, Prod.mk.injEq] at h
        obtain ⟨hb, -⟩ := h
        rw [← hb]
        rw [ih b r hr]
        constructor
        · intro hall l hl
          rcases List.mem_cons.mp hl with hle | hlr
          · exact ⟨(t, data), by rw [hle]; exact hp⟩
          · exact hall l hlr
        · intro hall l hl
          exact hall l (List.mem_cons_of_mem line hl)

/-- C1 (amended): provided every line of the run either decodes or fails
with a parser error — so the stream is not aborted mid-line by an uncaught
exception — then after the child process terminates a non-zero exit status
raises `MakeMkvRuntimeError` carrying the joined buffered unparsed lines
(regardless of whether records were yielded), a zero exit status with a
non-empty buffer raises the same error with that buffer, and the run
completes without raising if and only if the exit status is zero and every
emitted line decoded. -/
theorem c1_run_end_behavior (select : OutputType → Bool) (lines : List String)
    (returncode : Int) (buf : List String) (recs : List Rec)
    (h : processLines select (lines.map pyRstripNl) = .ok (buf, recs)) :
    (returncode ≠ 0 →
      run select lines returncode = .error (.makeMkvRuntimeError returncode (joinLines buf)))
    ∧ (returncode = 0 → buf ≠ [] →
      run select lines returncode = .error (.makeMkvRuntimeError 0 (joinLines buf)))
    ∧ (run select lines returncode = .ok recs ↔ returncode = 0 ∧ buf = [])
    ∧ (buf = [] ↔ ∀ l ∈ lines.map pyRstripNl, ∃ r, parse_line l = .ok r) := by
  refine ⟨?_, ?_, ?_, processLines_buf_empty select _ buf recs h⟩
  · intro hrc
    unfold run
    rw [h]
    simp [hrc]
  · intro hrc hb
    unfold run
    rw [h]
    simp [hrc, hb]
  · unfold run
    rw [h]
    constructor
    · intro hok
      by_cases hrc : returncode = 0
      · by_cases hb : buf = []
        · exact ⟨hrc, hb⟩
        · simp [hrc, hb] at hok
      · simp [hrc] at hok
    · rintro ⟨hrc, hb⟩
      simp [hrc, hb]

/-- C1 witness: a clean line plus one unrecognizable line under exit
status 0 end in the terminal `MakeMkvRuntimeError` carrying the buffered
line. -/
theorem c1_witness :
    run selectAll ["TCOUNT:0", "GARBAGE"] 0 =
      .error (.makeMkvRuntimeError 0 (joinLines ["GARBAGE"])) :=
  (c1_run_end_behavior selectAll ["TCOUNT:0", "GARBAGE"] 0 ["GARBAGE"]
    [.titles ⟨0⟩] (by decide)).2.1 rfl (by decide)

/-- C1 counterexample: an invocation whose stream holds the known-tag but
arity-short line `MSG:1` and whose exit status is 1 does not raise
`MakeMkvRuntimeError` at all — the uncaught `TypeError` aborts the
generator before the exit-status check is ever reached. -/
theorem c1_counterexample :
    run selectAll ["MSG:1"] 1 =
      .error (.uncaught (.typeError "MakeMKVMessage: missing constructor arguments"))
    ∧ (Except.error (RunError.uncaught (.typeError "MakeMKVMessage: missing constructor arguments")) ≠
        (.error (.makeMkvRuntimeError 1 (joinLines ["MSG:1"])) : Except RunError (List Rec))) := by
  exact ⟨by decide, by decide⟩

/-- A line with no colon or with an unknown tag makes `parse_line` raise
exactly a `MakeMkvParserError`. -/
theorem parse_line_parserError_of (line : String)
    (h : line.toList.contains colonChar = false ∨ outputTypeOf (tagOf line) = none) :
    ∃ s, parse_line line = .error (.makeMkvParserError s) := by
  unfold parse_line
  rcases h with h | h
  · rw [h]
    simp
  · cases hc : line.toList.contains colonChar with
    | false => exact ⟨"No Message Type Detected", rfl⟩
    | true => rw [h]; exact ⟨"Cannot parse " ++ tagOf line, rfl⟩

/-- C2 (amended): a line with no recognizable type tag (no colon, or an
unknown tag) raises a parser error that is caught: the raw line is
buffered and the stream continues, unchanged, with the remaining lines;
but a line whose decode raises any other exception — e.g. the `TypeError`
of a known tag whose payload does not match the constructor arity — aborts
the whole stream at that line with that exception, rather than being
buffered. -/
theorem c2_parse_error_recovery (select : OutputType → Bool) (line : String)
    (rest : List String) :
    ((line.toList.contains colonChar = false ∨ outputTypeOf (tagOf line) = none) →
      processLines select (line :: rest) =
        (processLines select rest).map (fun p => (line :: p.1, p.2)))
    ∧ (∀ e : PyExn, parse_line line = .error e → (∀ s, e ≠ .makeMkvParserError s) →
        processLines select (line :: rest) = .error e) := by
  constructor
  · intro h
    obtain ⟨s, hs⟩ := parse_line_parserError_of line h
    simp only [processLines, hs]
    cases hr : processLines select rest with
    | error e => simp [Except.map]
    | ok p => simp [Except.map]
  · intro e he hne
    cases e with
    | makeMkvParserError s => exact absurd rfl (hne s)
    | valueError s => simp only [processLines, he]
    | typeError s => simp only [processLines, he]
    | indexError s => simp only [processLines, he]

/-- C2 witness: the tag-less line NOPE is buffered and processing of the
remaining stream continues unchanged. -/
theorem c2_witness :
    processLines selectAll ["NOPE", "TCOUNT:0"] =
      (processLines selectAll ["TCOUNT:0"]).map (fun p => ("NOPE" :: p.1, p.2)) :=
  (c2_parse_error_recovery selectAll "NOPE" ["TCOUNT:0"]).1 (Or.inl (by decide))

/-- C2 counterexample: the known-tag, arity-short line `MSG:1` is not
buffered-and-skipped; it aborts the stream with an uncaught `TypeError`,
so the following well-formed line is never processed. -/
theorem c2_counterexample :
    processLines selectAll ["MSG:1", "TCOUNT:0"] =
      .error (.typeError "MakeMKVMessage: missing constructor arguments")
    ∧ (Except.error (PyExn.typeError "MakeMKVMessage: missing constructor arguments") ≠
        (.ok (["MSG:1"], [Rec.titles ⟨0⟩]) : Except PyExn (List String × List Rec))) := by
  exact ⟨by decide, by decide⟩

/-- What `read_error` computes on a message whose `sprintf` has a template
and at least one parameter. -/
theorem read_error_eq (data : MakeMKVMessage) (tmpl p0 : String) (ps : List String)
    (hs : data.sprintf = tmpl :: p0 :: ps) :
    MakeMKVOutputChecker.read_error data =
      .ok ((match MakeMKVOutputChecker.READ_ERROR_MAP p0 with
            | some (lvl, note) => [(LogLevel.debug, note), (lvl, data.message)]
            | none => [(LogLevel.warning, p0)]),
           .errmsg ⟨data.code, data.flags, data.count, data.message, ps, p0⟩) := by
  unfold MakeMKVOutputChecker.read_error mkMakeMKVErrorMessage
  rw [hs]
  cases hR : MakeMKVOutputChecker.READ_ERROR_MAP p0 with
  | none => simp [hR, Except.map]
  | some pr => obtain ⟨lvl, note⟩ := pr; simp [hR, Except.map]

/-- C3: a decoded message with code 2003 (READ_ERROR) carrying at least a
template and a first parameter always classifies to an `ErrorMessage`
whose error text is `params[0]`; when `params[0]` is the tray-open SCSI
string the severity log is at info level and no critical log is emitted;
when `params[0]` is any string outside the fixed read-error map the log
is a single warning of the raw error text; and in general the logged text
is the formatted message exactly when a diagnostic note exists in the
map, else the raw error text. -/
theorem c3_read_error_classification (data : MakeMKVMessage) (tmpl p0 : String)
    (ps : List String) (hcode : data.code = 2003) (hs : data.sprintf = tmpl :: p0 :: ps) :
    ∃ logged em,
      MakeMKVOutputChecker.check data = .ok (logged, .errmsg em)
      ∧ em.error = p0
      ∧ (p0 = ERROR_MESSAGE_TRAY_OPEN →
          logged = [(LogLevel.debug, "error mostly non fatal"), (LogLevel.info, data.message)]
          ∧ ∀ t, (LogLevel.critical, t) ∉ logged)
      ∧ (MakeMKVOutputChecker.READ_ERROR_MAP p0 = none → logged = [(LogLevel.warning, p0)])
      ∧ (∀ lvl note, MakeMKVOutputChecker.READ_ERROR_MAP p0 = some (lvl, note) →
          logged = [(LogLevel.debug, note), (lvl, data.message)]) := by
  have hcheck : MakeMKVOutputChecker.check data = MakeMKVOutputChecker.read_error data := by
    unfold MakeMKVOutputChecker.check
    rw [hcode]
    simp
  cases hR : MakeMKVOutputChecker.READ_ERROR_MAP p0 with
  | none =>
    refine ⟨[(LogLevel.warning, p0)], ⟨data.code, data.flags, data.count, data.message, ps, p0⟩,
      ?_, rfl, ?_, fun _ => rfl, ?_⟩
    · rw [hcheck, read_error_eq data tmpl p0 ps hs, hR]
    · intro hp0
      rw [hp0] at hR
      exact absurd hR (by decide)
    · intro lvl note hsome
      cases hsome
  | some pr =>
    obtain ⟨lvl, note⟩ := pr
    refine ⟨[(LogLevel.debug, note), (lvl, data.message)],
      ⟨data.code, data.flags, data.count, data.message, ps, p0⟩, ?_, rfl, ?_, ?_, ?_⟩
    · rw [hcheck, read_error_eq data tmpl p0 ps hs, hR]
    · intro hp0
      rw [hp0] at hR
      have hR' : MakeMKVOutputChecker.READ_ERROR_MAP ERROR_MESSAGE_TRAY_OPEN =
          some (LogLevel.info, "error mostly non fatal") := by decide
      have h12 : (LogLevel.info, "error mostly non fatal") = (lvl, note) :=
        Option.some.inj (hR'.symm.trans hR)
      rw [Prod.mk.injEq] at h12
      obtain ⟨h1, h2⟩ := h12
      constructor
      · rw [← h1, ← h2]
      · intro t ht
        rw [← h1, ← h2] at ht
        simp at ht
    · intro hnone
      cases hnone
    · intro lvl2 note2 hsome
      have h12 : (lvl, note) = (lvl2, note2) := Option.some.inj hsome
      rw [Prod.mk.injEq] at h12
      obtain ⟨h1, h2⟩ := h12
      rw [h1, h2]

/-- C3 witness: the tray-open fixture message classifies to an info-logged
error message. -/
theorem c3_witness :
    ∃ logged em,
      MakeMKVOutputChecker.check
          ⟨2003, 0, 2, "formatted", ["%1 at %2", ERROR_MESSAGE_TRAY_OPEN, "detail"]⟩ =
        .ok (logged, .errmsg em)
      ∧ em.error = ERROR_MESSAGE_TRAY_OPEN
      ∧ (ERROR_MESSAGE_TRAY_OPEN = ERROR_MESSAGE_TRAY_OPEN →
          logged = [(LogLevel.debug, "error mostly non fatal"), (LogLevel.info, "formatted")]
          ∧ ∀ t, (LogLevel.critical, t) ∉ logged)
      ∧ (MakeMKVOutputChecker.READ_ERROR_MAP ERROR_MESSAGE_TRAY_OPEN = none →
          logged = [(LogLevel.warning, ERROR_MESSAGE_TRAY_OPEN)])
      ∧ (∀ lvl note,
          MakeMKVOutputChecker.READ_ERROR_MAP ERROR_MESSAGE_TRAY_OPEN = some (lvl, note) →
          logged = [(LogLevel.debug, note), (lvl, "formatted")]) :=
  c3_read_error_classification
    ⟨2003, 0, 2, "formatted", ["%1 at %2", ERROR_MESSAGE_TRAY_OPEN, "detail"]⟩
    "%1 at %2" ERROR_MESSAGE_TRAY_OPEN ["detail"] rfl rfl

/-- The tokenizer as the specification words it: split on commas, split the
tail on the quote-comma-quote sequence, then strip ONE leading and ONE
trailing double quote from each quoted-derived piece.  The source instead
strips ALL leading and trailing quotes (Python `str.strip`), so this
definition exists only to compare the two. -/
def stripQuoteOnceSpec (s : String) : String :=
  let l := s.toList
  let l1 := match l with
    | c :: rest => if c = quoteChar then rest else l
    | [] => []
  let l2 := match l1.reverse with
    | c :: rest => if c = quoteChar then rest.reverse else l1
    | [] => []
  String.mk l2

/-- The spec-worded tokenizer built on single-quote stripping. -/
def parse_content_specWorded (content : String) (numHeader numMessage : Int) : List String :=
  let header := pySplit content "," numHeader
  let message := pySplit (header.getLastD "") "\",\"" numMessage
  header.dropLast ++ message.map stripQuoteOnceSpec

/-- C4 counterexample: on a quoted-derived piece carrying doubled quotes
the source tokenizer strips them all, not one leading and one trailing as
the claim words it, so the two algorithms disagree. -/
theorem c4_counterexample :
    parse_content "\"\"a\"\"" 0 0 = ["a"]
    ∧ parse_content_specWorded "\"\"a\"\"" 0 0 = ["\"a\""]
    ∧ (["a"] : List String) ≠ ["\"a\""] := by
  exact ⟨by decide, by decide, by decide⟩

/-- C4 (amended): the tokenizer splits on commas at most
`fixed_field_count` times from the left, splits the remaining tail on the
literal quote-comma-quote sequence at most `quoted_field_count` times, and
strips ALL leading and trailing double quotes from each quoted-derived
piece; consequently the literal MSG fixture line tokenizes to the six
expected fields and decodes to the expected `Message` record, with
`params = [the single parameter]` after the template. -/
theorem c4_tokenizer_fixture :
    parse_content "1005,0,1,\"MakeMKV v1.17.8 linux(x64-release) started\",\"%1 started\",\"MakeMKV v1.17.8 linux(x64-release)\"" 3 (-1)
      = ["1005", "0", "1", "MakeMKV v1.17.8 linux(x64-release) started", "%1 started",
         "MakeMKV v1.17.8 linux(x64-release)"]
    ∧ parse_line "MSG:1005,0,1,\"MakeMKV v1.17.8 linux(x64-release) started\",\"%1 started\",\"MakeMKV v1.17.8 linux(x64-release)\"" =
        .ok (.MSG, .msg ⟨1005, 0, 1, "MakeMKV v1.17.8 linux(x64-release) started",
          ["%1 started", "MakeMKV v1.17.8 linux(x64-release)"]⟩)
    ∧ MakeMKVMessage.params ⟨1005, 0, 1, "MakeMKV v1.17.8 linux(x64-release) started",
          ["%1 started", "MakeMKV v1.17.8 linux(x64-release)"]⟩
        = ["MakeMKV v1.17.8 linux(x64-release)"] := by
  exact ⟨by decide, by decide, by decide⟩

/-- Processing title-info records of the current title whose attribute ids
are neither FILENAME (27) nor DURATION (9) leaves the accumulator state
untouched and commits nothing. -/
theorem processList_no_attrs (tid : Int) :
    ∀ (ms : List TInfo), (∀ m ∈ ms, m.tid = tid ∧ m.id ≠ 27 ∧ m.id ≠ 9) →
    ∀ (s : TrackState), s.track_id = some tid →
    TrackInfoProcessor.processList s (ms.map Rec.tinfo) = .ok (s, []) := by
  intro ms
  induction ms with
  | nil => intro _ s _; rfl
  | cons m rest ih =>
    intro hall s hid
    obtain ⟨htid, h27, h9⟩ := hall m (by simp)
    have hs2 : { s with track_id := some m.tid } = s := by
      rw [htid]
      cases s
      simp only at hid
      rw [hid]
    have hstep : TrackInfoProcessor.process_message s (.tinfo m) = .ok (s, []) := by
      have h1 : TrackInfoProcessor.process_message s (.tinfo m) =
          TrackInfoProcessor.handle_info s m.tid
            (fun st => TrackInfoProcessor.handle_tinfo st m) := rfl
      rw [h1]
      unfold TrackInfoProcessor.handle_info
      rw [if_neg (by rw [hid, htid]; simp)]
      simp only [hs2]
      unfold TrackInfoProcessor.handle_tinfo
      rw [if_neg h27, if_neg h9]
      rfl
    have hrest := ih (fun x hx => hall x (List.mem_cons_of_mem m hx)) s hid
    simp only [List.map_cons, TrackInfoProcessor.processList, hstep, hrest]
    rfl

/-- C5: over the record sequence TINFO(title 1, FILENAME, value with the
embedded quoted movie.mkv), TINFO(title 1, DURATION, 1:30:00),
TINFO(title 2, other attribute), exactly one descriptor is committed for
title 1 — with `duration_seconds = 5400` and `filename = "movie.mkv"` —
and it is committed (appears in the output) before title 2's descriptor;
moreover any non-empty single-title record stream that yields neither a
FILENAME nor a DURATION attribute still commits a descriptor with the
default values (duration 0, empty filename) without throwing. -/
theorem c5_track_aggregation :
    TrackInfoProcessor.process_messages
        [Rec.tinfo ⟨27, 0, "prefix \"movie.mkv\" suffix", 1⟩,
         Rec.tinfo ⟨9, 0, "1:30:00", 1⟩,
         Rec.tinfo ⟨8, 0, "x", 2⟩] =
      .ok (⟨some 2, 0, "", .zero, "", none⟩,
        [⟨1, 5400, "", .zero, false, "MakeMKV", "movie.mkv"⟩,
         ⟨2, 0, "", .zero, false, "MakeMKV", ""⟩])
    ∧ ∀ (tid : Int) (ms : List TInfo), ms ≠ [] →
        (∀ m ∈ ms, m.tid = tid ∧ m.id ≠ 27 ∧ m.id ≠ 9) →
        TrackInfoProcessor.process_messages (ms.map Rec.tinfo) =
          .ok (⟨some tid, 0, "", .zero, "", none⟩,
               [⟨tid, 0, "", .zero, false, SOURCE, ""⟩]) := by
  constructor
  · decide
  · intro tid ms hne hall
    cases ms with
    | nil => exact absurd rfl hne
    | cons m rest =>
      obtain ⟨htid, h27, h9⟩ := hall m (by simp)
      have hstep : TrackInfoProcessor.process_message TrackInfoProcessor.initState (.tinfo m)
          = .ok (⟨some tid, 0, "", .zero, "", none⟩, []) := by
        have h1 : TrackInfoProcessor.process_message TrackInfoProcessor.initState (.tinfo m) =
            TrackInfoProcessor.handle_info TrackInfoProcessor.initState m.tid
              (fun st => TrackInfoProcessor.handle_tinfo st m) := rfl
        rw [h1]
        unfold TrackInfoProcessor.handle_info
        rw [if_neg (by simp [TrackInfoProcessor.initState])]
        unfold TrackInfoProcessor.handle_tinfo
        simp only [if_neg h27, if_neg h9]
        simp [TrackInfoProcessor.initState, htid, Except.map]
      have hrest := processList_no_attrs tid rest
        (fun x hx => hall x (List.mem_cons_of_mem m hx))
        ⟨some tid, 0, "", .zero, "", none⟩ rfl
      unfold TrackInfoProcessor.process_messages
      simp only [List.map_cons, TrackInfoProcessor.processList, hstep, hrest]
      rfl

/-- C5 witness: a single record for title 7 with attribute id 5 (neither
FILENAME nor DURATION) commits a default descriptor for title 7. -/
theorem c5_witness :
    TrackInfoProcessor.process_messages [Rec.tinfo ⟨5, 0, "v", 7⟩] =
      .ok (⟨some 7, 0, "", .zero, "", none⟩,
           [⟨7, 0, "", .zero, false, SOURCE, ""⟩]) :=
  c5_track_aggregation.2 7 [⟨5, 0, "v", 7⟩] (by decide)
    (by intro m hm; simp at hm; rw [hm]; exact ⟨rfl, by decide, by decide⟩)

/-- C7 counterexample: a message whose `params` list has exactly ONE entry
(fewer than the claimed two) still constructs an `ErrorMessage`
successfully — the source only requires the combined template-plus-params
list `sprintf` to have at least 2 entries, i.e. at least one parameter. -/
theorem c7_counterexample :
    (MakeMKVMessage.params ⟨1, 0, 1, "msg", ["%1", "boom"]⟩).length = 1
    ∧ mkMakeMKVErrorMessage ⟨1, 0, 1, "msg", ["%1", "boom"]⟩ =
        .ok ⟨1, 0, 1, "msg", [], "boom"⟩ := by
  exact ⟨by decide, by decide⟩

/-- C7 (amended): an `ErrorMessage` is constructed from a `Message` exactly
when its `sprintf` list (template followed by the parameters) has at least
2 entries, i.e. when `params` has at least 1 entry; fewer raises
`ValueError` — a hard construction failure, never a silent default — and
on success `error` is `params[0]` and the remaining params are repacked
into `sprintf`. -/
theorem c7_error_message_construction (m : MakeMKVMessage) :
    (m.sprintf.length < 2 → ∃ s, mkMakeMKVErrorMessage m = .error (.valueError s))
    ∧ (∀ tmpl p0 rest, m.sprintf = tmpl :: p0 :: rest →
        mkMakeMKVErrorMessage m = .ok ⟨m.code, m.flags, m.count, m.message, rest, p0⟩)
    ∧ ((∃ em, mkMakeMKVErrorMessage m = .ok em) ↔ 1 ≤ m.params.length) := by
  refine ⟨?_, ?_, ?_⟩
  · intro hlt
    unfold mkMakeMKVErrorMessage
    match hs : m.sprintf with
    | [] => exact ⟨_, rfl⟩
    | [a] => exact ⟨_, rfl⟩
    | a :: b :: rest =>
      rw [hs] at hlt
      simp at hlt
      exact absurd hlt (by omega)
  · intro tmpl p0 rest hs
    unfold mkMakeMKVErrorMessage
    rw [hs]
  · unfold mkMakeMKVErrorMessage MakeMKVMessage.params
    match hs : m.sprintf with
    | [] => simp
    | [a] => simp
    | a :: b :: rest => simp

/-- C7 witness: a message with a template but zero parameters fails to
construct an `ErrorMessage`. -/
theorem c7_witness :
    ∃ s, mkMakeMKVErrorMessage ⟨1, 0, 0, "t", ["%1"]⟩ = .error (.valueError s) :=
  (c7_error_message_construction ⟨1, 0, 0, "t", ["%1"]⟩).1 (by decide)

/-- C8 counterexample: after the end-of-stream commit triggered by a
single SINFO TYPE record, the scratch `stream_type` is NOT cleared — it
still holds the video type code in the post-commit accumulator state. -/
theorem c8_counterexample :
    TrackInfoProcessor.process_messages [Rec.sinfo ⟨1, 6201, "", 1, 0⟩] =
      .ok (⟨some 1, 0, "", .zero, "", some 6201⟩,
           [⟨1, 0, "", .zero, false, "MakeMKV", ""⟩])
    ∧ (⟨some 1, 0, "", .zero, "", some 6201⟩ : TrackState).stream_type ≠ none := by
  exact ⟨by decide, by decide⟩

/-- C8 (amended): every descriptor commit resets `seconds`, `aspect`,
`fps` and `filename` to their defaults — so no persisted field value
recorded for one title can appear in a later title's committed descriptor
— but the scratch `stream_type` is NOT cleared: it survives the commit
unchanged (as does `track_id`). -/
theorem c8_commit_resets (s : TrackState) (tid : Int) (h : s.track_id = some tid) :
    TrackInfoProcessor.add_track s =
      ({ s with seconds := 0, aspect := "", fps := .zero, filename := "" },
       [⟨tid, s.seconds, s.aspect, s.fps, false, SOURCE, s.filename⟩])
    ∧ (TrackInfoProcessor.add_track s).1.seconds = 0
    ∧ (TrackInfoProcessor.add_track s).1.aspect = ""
    ∧ (TrackInfoProcessor.add_track s).1.fps = .zero
    ∧ (TrackInfoProcessor.add_track s).1.filename = ""
    ∧ (TrackInfoProcessor.add_track s).1.stream_type = s.stream_type := by
  unfold TrackInfoProcessor.add_track
  rw [h]
  exact ⟨rfl, rfl, rfl, rfl, rfl, rfl⟩

/-- C8 witness: the commit-and-reset behavior at a fully populated
concrete accumulator state. -/
theorem c8_witness :
    TrackInfoProcessor.add_track ⟨some 3, 42, "16:9", .ofToken "23.976", "f.mkv", some 6201⟩ =
      (⟨some 3, 0, "", .zero, "", some 6201⟩,
       [⟨3, 42, "16:9", .ofToken "23.976", false, SOURCE, "f.mkv"⟩]) :=
  (c8_commit_resets ⟨some 3, 42, "16:9", .ofToken "23.976", "f.mkv", some 6201⟩ 3 rfl).1

/-- Reduction of `mkDriveFromTokens` at a seven-token list. -/
theorem mkDriveFromTokens_eq (mount disc info flagsS enabledS visibleS indexS : String) :
    mkDriveFromTokens [mount, disc, info, flagsS, enabledS, visibleS, indexS] =
      match pyInt flagsS, pyInt enabledS, pyInt visibleS, pyInt indexS with
      | .ok flags, .ok enabledWire, .ok visible, .ok index =>
        .ok (mkDrive mount disc info flags enabledWire visible index)
      | .error e, _, _, _ => .error e
      | .ok _, .error e, _, _ => .error e
      | .ok _, .ok _, .error e, _ => .error e
      | .ok _, .ok _, .ok _, .error e => .error e := rfl

/-- C6 counterexample: the fixture line decodes — with `attached = false`
as claimed — but its media kind is CD (`media_cd = true`), not Unknown:
`flags = 0` is the documented CD value, and even an undocumented flags
value such as 999 maps to CD through the `_missing_` fallback, so the
media kind is never "none of CD, DVD, BluRay". -/
theorem c6_counterexample :
    parse_line "DRV:6,256,999,0,\"\",\"\",\"\"" =
      .ok (.DRV, .drv ⟨"", "", "", 0, true, 256, 6, false, false, false, true, false, false⟩)
    ∧ (⟨"", "", "", 0, true, 256, 6, false, false, false, true, false, false⟩ : Drive).media_cd
        = true
    ∧ DriveType.ofInt 999 = DriveType.CD := by
  exact ⟨by decide, by decide, by decide⟩

/-- C6 (amended): decoding a DRV line never raises for out-of-range field
values — construction succeeds for every combination of integer field
values; a `visible` value outside the known set {0,1,2,3,256} is treated
as `NOT_ATTACHED` (so `attached = false`); an undocumented media-flags
value falls back to `CD` (so `media_cd = true`, not an "Unknown" kind);
the fixture line `DRV:6,256,999,0,"","",""` decodes to a drive with
`attached = false` and `media_cd = true`; and all derived fields are
computed once at construction by `mkDrive` from `flags` and `visible`. -/
theorem c6_drive_decode :
    (parse_line "DRV:6,256,999,0,\"\",\"\",\"\"" =
       .ok (.DRV, .drv (mkDrive "" "" "" 0 999 256 6))
     ∧ (mkDrive "" "" "" 0 999 256 6).attached = false
     ∧ (mkDrive "" "" "" 0 999 256 6).media_cd = true)
    ∧ (∀ v : Int, v ≠ 0 → v ≠ 1 → v ≠ 2 → v ≠ 3 → v ≠ 256 →
        DriveVisible.ofInt v = .NOT_ATTACHED)
    ∧ (∀ (mount disc info : String) (flags en v idx : Int),
        DriveVisible.ofInt v = .NOT_ATTACHED →
        (mkDrive mount disc info flags en v idx).attached = false)
    ∧ (∀ f : Int, f ≠ 0 → f ≠ 1 → f ≠ 12 → f ≠ 28 → DriveType.ofInt f = .CD)
    ∧ (∀ (mount disc info : String) (flags en v idx : Int),
        DriveType.ofInt flags = .CD →
        (mkDrive mount disc info flags en v idx).media_cd = true
        ∧ (mkDrive mount disc info flags en v idx).media_dvd = false
        ∧ (mkDrive mount disc info flags en v idx).media_bd = false)
    ∧ (∀ (mount disc info flagsS enabledS visibleS indexS : String) (flags en v idx : Int),
        pyInt flagsS = .ok flags → pyInt enabledS = .ok en →
        pyInt visibleS = .ok v → pyInt indexS = .ok idx →
        mkDriveFromTokens [mount, disc, info, flagsS, enabledS, visibleS, indexS] =
          .ok (mkDrive mount disc info flags en v idx)) := by
  refine ⟨⟨by decide, by decide, by decide⟩, ?_, ?_, ?_, ?_, ?_⟩
  · intro v h0 h1 h2 h3 h256
    unfold DriveVisible.ofInt
    rw [if_neg h0, if_neg h1, if_neg h2, if_neg h3, if_neg h256]
  · intro mount disc info flags en v idx hv
    unfold mkDrive
    rw [hv]
    rfl
  · intro f h0 h1 h12 h28
    unfold DriveType.ofInt
    rw [if_neg h0, if_neg h1, if_neg h12, if_neg h28]
  · intro mount disc info flags en v idx hf
    unfold mkDrive
    rw [hf]
    exact ⟨rfl, rfl, rfl⟩
  · intro mount disc info flagsS enabledS visibleS indexS flags en v idx hf he hv hi
    rw [mkDriveFromTokens_eq, hf, he, hv, hi]

/-- C6 witness: out-of-range values 999 for `visible` and for `flags`
neither raise nor leave the documented fallbacks. -/
theorem c6_witness :
    DriveVisible.ofInt 999 = DriveVisible.NOT_ATTACHED
    ∧ (mkDrive "d" "d" "d" 999 1 999 0).attached = false
    ∧ DriveType.ofInt 999 = DriveType.CD
    ∧ mkDriveFromTokens ["", "", "", "999", "1", "999", "0"] =
        .ok (mkDrive "" "" "" 999 1 999 0) :=
  ⟨c6_drive_decode.2.1 999 (by decide) (by decide) (by decide) (by decide) (by decide),
   c6_drive_decode.2.2.1 "d" "d" "d" 999 1 999 0
     (c6_drive_decode.2.1 999 (by decide) (by decide) (by decide) (by decide) (by decide)),
   c6_drive_decode.2.2.2.1 999 (by decide) (by decide) (by decide) (by decide),
   c6_drive_decode.2.2.2.2.2 "" "" "" "999" "1" "999" "0" 999 1 999 0
     (by decide) (by decide) (by decide) (by decide)⟩

/-- Where a blocking wait returns, the polled count is at or below the
ceiling, and every count polled before was strictly above it. -/
theorem waitFirstLE_spec (ceiling : Nat) :
    ∀ (counts : List Nat) (i : Nat), waitFirstLE ceiling counts = some i →
      (∃ c, counts[i]? = some c ∧ c ≤ ceiling)
      ∧ ∀ j, j < i → ∀ cj, counts[j]? = some cj → ceiling < cj := by
  intro counts
  induction counts with
  | nil => intro i h; cases h
  | cons c rest ih =>
    intro i h
    unfold waitFirstLE at h
    by_cases hc : c ≤ ceiling
    · rw [if_pos hc] at h
      cases h
      exact ⟨⟨c, by simp, hc⟩, fun j hj => absurd hj (Nat.not_lt_zero j)⟩
    · rw [if_neg hc] at h
      cases hr : waitFirstLE ceiling rest with
      | none => rw [hr] at h; cases h
      | some i' =>
        rw [hr] at h
        simp only [Option.map, Option.some.injEq] at h
        obtain ⟨⟨c', hc', hle⟩, hall⟩ := ih i' hr
        refine ⟨⟨c', ?_, hle⟩, ?_⟩
        · rw [← h]
          simpa using hc'
        · intro j hj cj hcj
          cases j with
          | zero =>
            simp at hcj
            rw [← hcj]
            exact Nat.lt_of_not_le hc
          | succ j' =>
            refine hall j' (by omega) cj ?_
            simpa using hcj

/-- C9: with a ceiling of 0 the throttle around an info-query invocation
is a complete no-op — no pre-invocation wait, no cooldown, no
post-invocation repoll, regardless of the reported process counts; with a
positive ceiling the pre-invocation wait blocks exactly until the first
polled count at or below the ceiling (every earlier poll saw a higher
count), and the cooldown is applied. -/
theorem c9_throttle (ceiling : Nat) (preCounts postCounts : List Nat) :
    makemkv_info_throttle 0 preCounts postCounts = some ⟨0, false, 0⟩
    ∧ (ceiling ≠ 0 → ∀ tr, makemkv_info_throttle ceiling preCounts postCounts = some tr →
        (∃ c, preCounts[tr.preWaits]? = some c ∧ c ≤ ceiling)
        ∧ (∀ j, j < tr.preWaits → ∀ cj, preCounts[j]? = some cj → ceiling < cj)
        ∧ tr.cooldownApplied = true) := by
  constructor
  · rfl
  · intro hc tr htr
    unfold makemkv_info_throttle sleep_check_process at htr
    rw [if_neg hc, if_neg hc] at htr
    cases hpre : waitFirstLE ceiling preCounts with
    | none => rw [hpre] at htr; cases htr
    | some pre =>
      rw [hpre] at htr
      cases hpost : waitFirstLE ceiling postCounts with
      | none => rw [hpost] at htr; cases htr
      | some post =>
        rw [hpost] at htr
        cases htr
        obtain ⟨hex, hall⟩ := waitFirstLE_spec ceiling preCounts pre hpre
        exact ⟨hex, hall, by simp [hc]⟩

/-- C9 witness: a zero ceiling ignores high reported counts entirely, and
a ceiling of 1 with polled counts 3 then 1 waits exactly one poll. -/
theorem c9_witness :
    makemkv_info_throttle 0 [5, 5, 5] [9] = some ⟨0, false, 0⟩
    ∧ ((∃ c, ([3, 1] : List Nat)[(1 : Nat)]? = some c ∧ c ≤ 1)
        ∧ (∀ j, j < 1 → ∀ cj, ([3, 1] : List Nat)[j]? = some cj → 1 < cj)
        ∧ (true : Bool) = true) :=
  ⟨(c9_throttle 0 [5, 5, 5] [9]).1,
   (c9_throttle 1 [3, 1] [0]).2 (by decide) ⟨1, true, 0⟩ (by decide)⟩

/-- C10: for every successfully decoded DRV record, `enabled` is true if
and only if the wire `enabled` field parses to the integer 999
(`MAKEMKV_UNKNOWN_DRV`); any other wire value, including 1, yields
`enabled = false`. -/
theorem c10_enabled_iff (mount disc info flagsS enabledS visibleS indexS : String)
    (d : Drive)
    (h : mkDriveFromTokens [mount, disc, info, flagsS, enabledS, visibleS, indexS] = .ok d) :
    d.enabled = true ↔ pyInt enabledS = .ok 999 := by
  rw [mkDriveFromTokens_eq] at h
  split at h
  · rename_i flags en vis idx hf he hv hi
    simp only [Except.ok.injEq] at h
    rw [← h, he]
    unfold mkDrive MAKEMKV_UNKNOWN_DRV
    simp [decide_eq_true_eq]
  all_goals exact absurd h (by simp)

/-- C10 witness: a wire `enabled` value of 1 yields `enabled = false`. -/
theorem c10_witness :
    ((mkDrive "" "" "" 0 1 256 6).enabled = true ↔ pyInt "1" = .ok 999)
    ∧ (mkDrive "" "" "" 0 1 256 6).enabled = false :=
  ⟨c10_enabled_iff "" "" "" "0" "1" "256" "6" (mkDrive "" "" "" 0 1 256 6) (by decide),
   by decide⟩

end ArmMakemkv
